import Mathlib

/-!
Verification of `custom_components/immich/hub.py` (immich-home-assistant).

The hub is a thin HTTP adapter: every operation issues one request and maps
the response to a value or an error.  We embed each operation as a pure
function from the transport outcome (a raised `aiohttp.ClientError`, or an
HTTP response carrying a status code, raw bytes, and the decoded JSON body)
to a `HubOutcome`, which records the returned value or which exception
escapes the Python function.  JSON values are modelled by an inductive type
with Python dictionary semantics: `d[k]` raises `KeyError`/`TypeError`
(`Json.subscript`), `d.get(k)` returns `None` for a missing key and raises
`AttributeError` on a non-dict (`Json.dictGet`), and truthiness follows
Python (`Json.truthy`).  The request each operation builds (method, path,
headers, form data) is embedded separately, parameterised by the values the
code reads at call time (api key, asset/album ids, current day/month).
-/

namespace Immich

/-- A decoded JSON value, as produced by `response.json()`. -/
inductive Json where
  | null : Json
  | bool : Bool → Json
  | num : Int → Json
  | str : String → Json
  | arr : List Json → Json
  | obj : List (String × Json) → Json

/-- The Python exceptions that mapping access in `hub.py` can raise.
They are not `aiohttp.ClientError`, so the `except` clauses never catch
them and they escape the accessor untyped. -/
inductive PyErr where
  | keyError : String → PyErr
  | typeError : PyErr
  | attributeError : PyErr

/-- First-match lookup in a JSON object's field list (Python dict keys are
unique, so first match is the match). -/
def assocGet : List (String × Json) → String → Option Json
  | [], _ => none
  | (k, v) :: rest, key => if k = key then some v else assocGet rest key

/-- Python subscript `d[k]` with a string key: on a dict, the value or
`KeyError`; on anything else, `TypeError`. -/
def Json.subscript : Json → String → Except PyErr Json
  | .obj fs, k =>
    match assocGet fs k with
    | some v => .ok v
    | none => .error (.keyError k)
  | _, _ => .error .typeError

/-- Python `d.get(k)`: on a dict, the value or `None`; on anything else,
`AttributeError` (only dicts have `.get`). -/
def Json.dictGet : Json → String → Except PyErr Json
  | .obj fs, k => .ok ((assocGet fs k).getD .null)
  | _, _ => .error .attributeError

/-- Python truthiness of a JSON value. -/
def Json.truthy : Json → Bool
  | .null => false
  | .bool b => b
  | .num n => n != 0
  | .str s => !s.isEmpty
  | .arr xs => !xs.isEmpty
  | .obj fs => !fs.isEmpty

/-- Python `x == "IMAGE"`: true exactly when `x` is that string. -/
def isImageTag : Json → Bool
  | .str s => s == "IMAGE"
  | _ => false

/-- Python iteration `for x in j`: a list yields its elements, a dict its
keys, a string its characters; other values raise `TypeError`. -/
def Json.pyIter : Json → Except PyErr (List Json)
  | .arr xs => .ok xs
  | .obj fs => .ok (fs.map fun p => Json.str p.1)
  | .str s => .ok (s.toList.map fun c => Json.str (String.mk [c]))
  | _ => .error .typeError

/-- An HTTP response as the accessors observe it: `status`, the raw bytes
`response.read()` yields, and the decoded JSON `response.json()` yields. -/
structure HttpResponse where
  status : Nat
  raw : List Nat
  json : Json

/-- What the transport produced for one request: either `aiohttp` raised a
`ClientError` (carried as a description string), or a response arrived. -/
inductive TransportResult where
  | clientError : String → TransportResult
  | response : HttpResponse → TransportResult

/-- How one accessor call ends: a returned value, or the exception that
escapes it.  `cannotConnect` carries the chained transport error;
`transportError` is an `aiohttp.ClientError` propagating unwrapped (no
`try` around `list_memory_lane_images`); `pyError` is an untyped Python
exception (`KeyError`/`TypeError`/`AttributeError`) escaping the accessor. -/
inductive HubOutcome (α : Type) where
  | ok : α → HubOutcome α
  | cannotConnect : String → HubOutcome α
  | apiError : HubOutcome α
  | invalidAuth : HubOutcome α
  | transportError : String → HubOutcome α
  | pyError : PyErr → HubOutcome α

/-- `True` when the outcome is a return value or one of the hub's three
typed failures; `false` when an untyped error escapes. -/
def HubOutcome.isTyped {α : Type} : HubOutcome α → Bool
  | .pyError _ => false
  | .transportError _ => false
  | _ => true

/-- `[asset for asset in assets if asset["type"] == "IMAGE"]` in
`list_favorite_images` / `list_album_images`: subscript access, so an
asset without a usable `"type"` key raises. -/
def filterTypeImage : List Json → Except PyErr (List Json)
  | [] => .ok []
  | a :: rest => do
    let t ← a.subscript "type"
    let tail ← filterTypeImage rest
    pure (if isImageTag t then a :: tail else tail)

/-- The inner loop of `list_memory_lane_images`:
`if asset.get("type") == "IMAGE": assets.append(asset)` — `.get`, so a
missing key yields `None` (not `"IMAGE"`) instead of raising. -/
def memoryFilter : List Json → Except PyErr (List Json)
  | [] => .ok []
  | a :: rest => do
    let t ← a.dictGet "type"
    let tail ← memoryFilter rest
    pure (if isImageTag t then a :: tail else tail)

/-- The outer loop of `list_memory_lane_images`: for each memory-lane entry
`item`, iterate `item["assets"]` and collect its image assets in order. -/
def memoryLaneLoop : List Json → Except PyErr (List Json)
  | [] => .ok []
  | item :: rest => do
    let assetsJ ← item.subscript "assets"
    let assets ← assetsJ.pyIter
    let here ← memoryFilter assets
    let tail ← memoryLaneLoop rest
    pure (here ++ tail)

/-- `ImmichHub.authenticate`: non-200 → `False`; 200 → `True` iff
`auth_result.get("authStatus")` is truthy.  The surrounding `try` turns a
`ClientError` into `CannotConnect`. -/
def authenticate : TransportResult → HubOutcome Bool
  | .clientError e => .cannotConnect e
  | .response r =>
    if r.status ≠ 200 then .ok false
    else
      match r.json.dictGet "authStatus" with
      | .error e => .pyError e
      | .ok v => if v.truthy then .ok true else .ok false

/-- `ImmichHub.get_my_user_info`: non-200 → `ApiError`; 200 → the decoded
body. -/
def get_my_user_info : TransportResult → HubOutcome Json
  | .clientError e => .cannotConnect e
  | .response r => if r.status ≠ 200 then .apiError else .ok r.json

/-- `ImmichHub.get_asset_info`: non-200 → `ApiError`; 200 → the decoded
body. -/
def get_asset_info : TransportResult → HubOutcome Json
  | .clientError e => .cannotConnect e
  | .response r => if r.status ≠ 200 then .apiError else .ok r.json

/-- `ImmichHub.download_asset`: non-200 → `None` (logged, not raised);
200 → the raw response bytes. -/
def download_asset : TransportResult → HubOutcome (Option (List Nat))
  | .clientError e => .cannotConnect e
  | .response r => if r.status ≠ 200 then .ok none else .ok (some r.raw)

/-- `ImmichHub.list_favorite_images`: non-200 → `ApiError`; 200 →
`favorites["assets"]["items"]` filtered to image assets. -/
def list_favorite_images : TransportResult → HubOutcome (List Json)
  | .clientError e => .cannotConnect e
  | .response r =>
    if r.status ≠ 200 then .apiError
    else
      match (do
        let wrapper ← r.json.subscript "assets"
        let items ← wrapper.subscript "items"
        let assets ← items.pyIter
        filterTypeImage assets : Except PyErr (List Json)) with
      | .error e => .pyError e
      | .ok v => .ok v

/-- `ImmichHub.list_all_albums`: non-200 → `ApiError`; 200 → the decoded
body, returned as-is. -/
def list_all_albums : TransportResult → HubOutcome Json
  | .clientError e => .cannotConnect e
  | .response r => if r.status ≠ 200 then .apiError else .ok r.json

/-- `ImmichHub.list_album_images`: non-200 → `ApiError`; 200 →
`album_info["assets"]` filtered to image assets. -/
def list_album_images : TransportResult → HubOutcome (List Json)
  | .clientError e => .cannotConnect e
  | .response r =>
    if r.status ≠ 200 then .apiError
    else
      match (do
        let assetsJ ← r.json.subscript "assets"
        let assets ← assetsJ.pyIter
        filterTypeImage assets : Except PyErr (List Json)) with
      | .error e => .pyError e
      | .ok v => .ok v

/-- `ImmichHub.list_memory_lane_images`: the only accessor with no
`try`/`except`, so a `ClientError` propagates unwrapped.  Non-200 →
`ApiError`; 200 → the entries' assets flattened in order, filtered via
`.get("type")`. -/
def list_memory_lane_images : TransportResult → HubOutcome (List Json)
  | .clientError e => .transportError e
  | .response r =>
    if r.status ≠ 200 then .apiError
    else
      match (do
        let items ← r.json.pyIter
        memoryLaneLoop items : Except PyErr (List Json)) with
      | .error e => .pyError e
      | .ok v => .ok v

/-! Request construction.  Each operation builds its URL from the host and
a fixed path via `urljoin` and attaches headers; only the path, method,
headers and form data are modelled (no claim depends on `urljoin` itself). -/

/-- `_HEADER_API_KEY` in `hub.py`. -/
def _HEADER_API_KEY : String := "x-api-key"

/-- The request one operation issues: method, API path, headers, form data. -/
structure Request where
  method : String
  path : String
  headers : List (String × String)
  data : List (String × String)

/-- The request `authenticate` builds. -/
def authenticate_request (apiKey : String) : Request :=
  { method := "POST", path := "/api/auth/validateToken",
    headers := [("Accept", "application/json"), (_HEADER_API_KEY, apiKey)],
    data := [] }

/-- The request `get_my_user_info` builds. -/
def get_my_user_info_request (apiKey : String) : Request :=
  { method := "GET", path := "/api/users/me",
    headers := [("Accept", "application/json"), (_HEADER_API_KEY, apiKey)],
    data := [] }

/-- The request `get_asset_info` builds. -/
def get_asset_info_request (apiKey assetId : String) : Request :=
  { method := "GET", path := "/api/assets/" ++ assetId,
    headers := [("Accept", "application/json"), (_HEADER_API_KEY, apiKey)],
    data := [] }

/-- The request `download_asset` builds (the only one without an `Accept`
header). -/
def download_asset_request (apiKey assetId : String) : Request :=
  { method := "GET", path := "/api/assets/" ++ assetId ++ "/thumbnail?size=preview",
    headers := [(_HEADER_API_KEY, apiKey)],
    data := [] }

/-- The request `list_favorite_images` builds (form body
`{"isFavorite": "true"}`). -/
def list_favorite_images_request (apiKey : String) : Request :=
  { method := "POST", path := "/api/search/metadata",
    headers := [("Accept", "application/json"), (_HEADER_API_KEY, apiKey)],
    data := [("isFavorite", "true")] }

/-- The request `list_all_albums` builds. -/
def list_all_albums_request (apiKey : String) : Request :=
  { method := "GET", path := "/api/albums",
    headers := [("Accept", "application/json"), (_HEADER_API_KEY, apiKey)],
    data := [] }

/-- The request `list_album_images` builds. -/
def list_album_images_request (apiKey albumId : String) : Request :=
  { method := "GET", path := "/api/albums/" ++ albumId,
    headers := [("Accept", "application/json"), (_HEADER_API_KEY, apiKey)],
    data := [] }

/-- The request `list_memory_lane_images` builds, with `day` and `month`
read from the wall clock at call time. -/
def list_memory_lane_images_request (apiKey : String) (day month : Nat) : Request :=
  { method := "GET",
    path := "/api/assets/memory-lane?day=" ++ toString day ++ "&month=" ++ toString month,
    headers := [("Accept", "application/json"), (_HEADER_API_KEY, apiKey)],
    data := [] }

/-! Specification-side predicates and helper lemmas. -/

/-- The decoded asset is a dict whose `"type"` field equals `"IMAGE"`. -/
def hasImageType : Json → Bool
  | .obj fs =>
    match assocGet fs "type" with
    | some t => isImageTag t
    | none => false
  | _ => false

/-- The asset shape the subscript-based filters need: a dict with a
`"type"` key. -/
def wfAsset : Json → Bool
  | .obj fs => (assocGet fs "type").isSome
  | _ => false

/-- The value is a dict. -/
def isObj : Json → Bool
  | .obj _ => true
  | _ => false

/-- The body shape `list_favorite_images` decodes:
`{"assets": {"items": [asset, ...]}}` with each asset a dict carrying a
`"type"` key. -/
def wfFavoritesBody : Json → Bool
  | .obj fs =>
    match assocGet fs "assets" with
    | some (.obj fs2) =>
      match assocGet fs2 "items" with
      | some (.arr assets) => assets.all wfAsset
      | _ => false
    | _ => false
  | _ => false

/-- The body shape `list_album_images` decodes: `{"assets": [asset, ...]}`
with each asset a dict carrying a `"type"` key. -/
def wfAlbumBody : Json → Bool
  | .obj fs =>
    match assocGet fs "assets" with
    | some (.arr assets) => assets.all wfAsset
    | _ => false
  | _ => false

/-- One memory-lane entry: `{"assets": [asset, ...]}` with each asset a
dict (`.get` demands no `"type"` key). -/
def wfMemoryLaneEntry : Json → Bool
  | .obj fs =>
    match assocGet fs "assets" with
    | some (.arr assets) => assets.all isObj
    | _ => false
  | _ => false

/-- The body shape `list_memory_lane_images` decodes: a list of
memory-lane entries. -/
def wfMemoryLaneBody : Json → Bool
  | .arr items => items.all wfMemoryLaneEntry
  | _ => false

/-- Concrete image asset used to instantiate universally quantified
claims. -/
def imgA : Json := .obj [("id", .str "A"), ("type", .str "IMAGE")]

/-- Concrete image asset. -/
def imgB : Json := .obj [("id", .str "B"), ("type", .str "IMAGE")]

/-- Concrete image asset. -/
def imgC : Json := .obj [("id", .str "C"), ("type", .str "IMAGE")]

/-- Concrete video asset. -/
def vidD : Json := .obj [("id", .str "D"), ("type", .str "VIDEO")]

/-- Concrete video asset. -/
def vidE : Json := .obj [("id", .str "E"), ("type", .str "VIDEO")]

theorem wfAsset_isObj (a : Json) (h : wfAsset a = true) : isObj a = true := by
  cases a <;> simp_all [wfAsset, isObj]

/-- On assets that all carry a `"type"` key, the subscript-based
comprehension is the order-preserving filter on `hasImageType`. -/
theorem filterTypeImage_eq_filter (assets : List Json)
    (h : assets.all wfAsset = true) :
    filterTypeImage assets = .ok (assets.filter hasImageType) := by
  induction assets with
  | nil => rfl
  | cons a rest ih =>
    rw [List.all_cons, Bool.and_eq_true] at h
    obtain ⟨ha, hrest⟩ := h
    have ihr := ih hrest
    cases a with
    | obj fs =>
      cases hg : assocGet fs "type" with
      | none => simp [wfAsset, hg] at ha
      | some t =>
        cases hI : isImageTag t <;>
          simp [filterTypeImage, Json.subscript, hg, ihr, List.filter_cons,
            hasImageType, hI, bind, Except.bind, pure, Except.pure]
    | null => simp [wfAsset] at ha
    | bool b => simp [wfAsset] at ha
    | num n => simp [wfAsset] at ha
    | str s => simp [wfAsset] at ha
    | arr xs => simp [wfAsset] at ha

/-- On assets that are all dicts, the `.get`-based comprehension of
`list_memory_lane_images` is the same filter: a missing `"type"` key
yields `None`, which is not `"IMAGE"`, so the asset is dropped. -/
theorem memoryFilter_eq_filter (assets : List Json)
    (h : assets.all isObj = true) :
    memoryFilter assets = .ok (assets.filter hasImageType) := by
  induction assets with
  | nil => rfl
  | cons a rest ih =>
    rw [List.all_cons, Bool.and_eq_true] at h
    obtain ⟨ha, hrest⟩ := h
    have ihr := ih hrest
    cases a with
    | obj fs =>
      cases hg : assocGet fs "type" with
      | none =>
        simp [memoryFilter, Json.dictGet, hg, ihr, hasImageType, isImageTag,
          List.filter_cons, bind, Except.bind, pure, Except.pure]
      | some t =>
        cases hI : isImageTag t <;>
          simp [memoryFilter, Json.dictGet, hg, ihr, List.filter_cons,
            hasImageType, hI, bind, Except.bind, pure, Except.pure]
    | null => simp [isObj] at ha
    | bool b => simp [isObj] at ha
    | num n => simp [isObj] at ha
    | str s => simp [isObj] at ha
    | arr xs => simp [isObj] at ha

/-- The outer loop of `list_memory_lane_images` on a list of entries
`{"assets": [...]}` concatenates the per-entry filtered lists in entry
order. -/
theorem memoryLaneLoop_eq_join (entries : List (List Json))
    (h : (entries.all fun as => as.all isObj) = true) :
    memoryLaneLoop (entries.map fun as => .obj [("assets", .arr as)])
      = .ok (entries.map fun as => as.filter hasImageType).flatten := by
  induction entries with
  | nil => rfl
  | cons as rest ih =>
    rw [List.all_cons, Bool.and_eq_true] at h
    obtain ⟨ha, hrest⟩ := h
    simp [memoryLaneLoop, Json.subscript, assocGet, Json.pyIter,
      memoryFilter_eq_filter as ha, ih hrest, bind, Except.bind, pure, Except.pure]

/-- `wfFavoritesBody` forces the body to be a dict. -/
theorem wfFavoritesBody_isObj (j : Json) (h : wfFavoritesBody j = true) :
    isObj j = true := by
  cases j <;>
    first
      | rfl
      | simp [wfFavoritesBody] at h

/-- Under a well-formed favorites body, `list_favorite_images` ends in a
value or a typed failure. -/
theorem list_favorite_images_typed (r : HttpResponse)
    (h : wfFavoritesBody r.json = true) :
    (list_favorite_images (.response r)).isTyped = true := by
  obtain ⟨status, raw, j⟩ := r
  by_cases h200 : status = 200
  · subst h200
    unfold wfFavoritesBody at h
    repeat' split at h
    all_goals simp_all [list_favorite_images, Json.subscript, Json.pyIter,
      bind, Except.bind, HubOutcome.isTyped, filterTypeImage_eq_filter]
  · simp [list_favorite_images, h200, HubOutcome.isTyped]

/-- Under a well-formed album body, `list_album_images` ends in a value or
a typed failure. -/
theorem list_album_images_typed (r : HttpResponse)
    (h : wfAlbumBody r.json = true) :
    (list_album_images (.response r)).isTyped = true := by
  obtain ⟨status, raw, j⟩ := r
  by_cases h200 : status = 200
  · subst h200
    unfold wfAlbumBody at h
    repeat' split at h
    all_goals simp_all [list_album_images, Json.subscript, Json.pyIter,
      bind, Except.bind, HubOutcome.isTyped, filterTypeImage_eq_filter]
  · simp [list_album_images, h200, HubOutcome.isTyped]

/-- On entries that are all well-formed, the memory-lane loop succeeds. -/
theorem memoryLaneLoop_ok (items : List Json)
    (h : items.all wfMemoryLaneEntry = true) :
    ∃ v, memoryLaneLoop items = .ok v := by
  induction items with
  | nil => exact ⟨[], rfl⟩
  | cons item rest ih =>
    rw [List.all_cons, Bool.and_eq_true] at h
    obtain ⟨ha, hrest⟩ := h
    obtain ⟨tail, htail⟩ := ih hrest
    unfold wfMemoryLaneEntry at ha
    repeat' split at ha
    all_goals simp_all [memoryLaneLoop, Json.subscript, Json.pyIter,
      bind, Except.bind, pure, Except.pure, memoryFilter_eq_filter]

/-- Under a well-formed memory-lane body, `list_memory_lane_images` ends
in a value or a typed failure. -/
theorem list_memory_lane_images_typed (r : HttpResponse)
    (h : wfMemoryLaneBody r.json = true) :
    (list_memory_lane_images (.response r)).isTyped = true := by
  obtain ⟨status, raw, j⟩ := r
  by_cases h200 : status = 200
  · cases j with
    | arr items =>
      subst h200
      obtain ⟨v, hv⟩ :=
        memoryLaneLoop_ok items (by simpa [wfMemoryLaneBody] using h)
      simp [list_memory_lane_images, Json.pyIter, hv, bind, Except.bind,
        HubOutcome.isTyped]
    | null => simp [wfMemoryLaneBody] at h
    | bool b => simp [wfMemoryLaneBody] at h
    | num n => simp [wfMemoryLaneBody] at h
    | str s => simp [wfMemoryLaneBody] at h
    | obj fs => simp [wfMemoryLaneBody] at h
  · simp [list_memory_lane_images, h200, HubOutcome.isTyped]

/-- On a dict body, `authenticate` ends in a value or a typed failure. -/
theorem authenticate_typed (r : HttpResponse) (h : isObj r.json = true) :
    (authenticate (.response r)).isTyped = true := by
  obtain ⟨status, raw, j⟩ := r
  by_cases h200 : status = 200
  · cases j with
    | obj fs =>
      subst h200
      cases ht : ((assocGet fs "authStatus").getD Json.null).truthy <;>
        simp [authenticate, Json.dictGet, ht, HubOutcome.isTyped]
    | null => simp [isObj] at h
    | bool b => simp [isObj] at h
    | num n => simp [isObj] at h
    | str s => simp [isObj] at h
    | arr xs => simp [isObj] at h
  · simp [authenticate, h200, HubOutcome.isTyped]

/-! Claim theorems. -/

/-- C1: every accessor except `list_memory_lane_images` maps a raised
transport (`aiohttp.ClientError`) failure to `CannotConnect` chaining that
error; `list_memory_lane_images` lets the transport error propagate
unwrapped. -/
theorem C1_transport_error_wrapping (e : String) :
    authenticate (.clientError e) = .cannotConnect e ∧
    get_my_user_info (.clientError e) = .cannotConnect e ∧
    get_asset_info (.clientError e) = .cannotConnect e ∧
    download_asset (.clientError e) = .cannotConnect e ∧
    list_favorite_images (.clientError e) = .cannotConnect e ∧
    list_all_albums (.clientError e) = .cannotConnect e ∧
    list_album_images (.clientError e) = .cannotConnect e ∧
    list_memory_lane_images (.clientError e) = .transportError e :=
  ⟨rfl, rfl, rfl, rfl, rfl, rfl, rfl, rfl⟩

/-- C2: over every status and every decoded JSON-object body,
`authenticate` returns `true` exactly when the status is 200 and the
body's `authStatus` field is truthy, returns `false` in every other case,
and never raises on such an application-level rejection. -/
theorem C2_authenticate_spec (status : Nat) (raw : List Nat)
    (fields : List (String × Json)) :
    authenticate (.response ⟨status, raw, .obj fields⟩) =
      .ok (decide (status = 200) &&
        ((assocGet fields "authStatus").getD .null).truthy) := by
  by_cases h : status = 200
  · cases ht : ((assocGet fields "authStatus").getD Json.null).truthy <;>
      simp [authenticate, Json.dictGet, h, ht]
  · simp [authenticate, h]

/-- C3: on every response whose status is not in the 2xx range, each
JSON-returning accessor other than `authenticate` and `download_asset`
raises `ApiError` and returns no value. -/
theorem C3_non_2xx_raises_api_error (r : HttpResponse)
    (h : ¬ (200 ≤ r.status ∧ r.status ≤ 299)) :
    get_my_user_info (.response r) = .apiError ∧
    get_asset_info (.response r) = .apiError ∧
    list_favorite_images (.response r) = .apiError ∧
    list_all_albums (.response r) = .apiError ∧
    list_album_images (.response r) = .apiError ∧
    list_memory_lane_images (.response r) = .apiError := by
  have hne : r.status ≠ 200 := by omega
  refine ⟨?_, ?_, ?_, ?_, ?_, ?_⟩ <;>
    simp [get_my_user_info, get_asset_info, list_favorite_images,
      list_all_albums, list_album_images, list_memory_lane_images, hne]

/-- C3 witness: a 404 response makes all six accessors raise `ApiError`. -/
theorem C3_non_2xx_raises_api_error_witness :
    get_my_user_info (.response ⟨404, [], .obj []⟩) = .apiError ∧
    get_asset_info (.response ⟨404, [], .obj []⟩) = .apiError ∧
    list_favorite_images (.response ⟨404, [], .obj []⟩) = .apiError ∧
    list_all_albums (.response ⟨404, [], .obj []⟩) = .apiError ∧
    list_album_images (.response ⟨404, [], .obj []⟩) = .apiError ∧
    list_memory_lane_images (.response ⟨404, [], .obj []⟩) = .apiError :=
  C3_non_2xx_raises_api_error ⟨404, [], .obj []⟩ (by decide)

/-- C5: on a 200 response whose assets all carry a `"type"` key,
`list_favorite_images`, `list_album_images` and `list_memory_lane_images`
return exactly the assets whose `"type"` equals `"IMAGE"`, in their
original relative order. -/
theorem C5_image_type_filtering (assets : List Json) (raw : List Nat)
    (h : assets.all wfAsset = true) :
    list_favorite_images (.response ⟨200, raw,
        .obj [("assets", .obj [("items", .arr assets)])]⟩)
      = .ok (assets.filter hasImageType) ∧
    list_album_images (.response ⟨200, raw, .obj [("assets", .arr assets)]⟩)
      = .ok (assets.filter hasImageType) ∧
    list_memory_lane_images (.response ⟨200, raw,
        .arr [.obj [("assets", .arr assets)]]⟩)
      = .ok (assets.filter hasImageType) := by
  have hobj : assets.all isObj = true := by
    simp only [List.all_eq_true] at h ⊢
    intro a hma
    exact wfAsset_isObj a (h a hma)
  refine ⟨?_, ?_, ?_⟩
  · simp [list_favorite_images, Json.subscript, assocGet, Json.pyIter,
      filterTypeImage_eq_filter assets h, bind, Except.bind]
  · simp [list_album_images, Json.subscript, assocGet, Json.pyIter,
      filterTypeImage_eq_filter assets h, bind, Except.bind]
  · simp [list_memory_lane_images, Json.pyIter, memoryLaneLoop, Json.subscript,
      assocGet, memoryFilter_eq_filter assets hobj, bind, Except.bind,
      pure, Except.pure]

/-- C5 witness: 3 images interleaved with 2 videos yield exactly the 3
images in order, for all three list operations. -/
theorem C5_image_type_filtering_witness :
    list_favorite_images (.response ⟨200, [], .obj [("assets", .obj [("items",
        .arr [imgA, vidD, imgB, vidE, imgC])])]⟩) = .ok [imgA, imgB, imgC] ∧
    list_album_images (.response ⟨200, [], .obj [("assets",
        .arr [imgA, vidD, imgB, vidE, imgC])]⟩) = .ok [imgA, imgB, imgC] ∧
    list_memory_lane_images (.response ⟨200, [], .arr [.obj [("assets",
        .arr [imgA, vidD, imgB, vidE, imgC])]]⟩) = .ok [imgA, imgB, imgC] := by
  have h := C5_image_type_filtering [imgA, vidD, imgB, vidE, imgC] [] (by rfl)
  exact ⟨h.1.trans (by rfl), h.2.1.trans (by rfl), h.2.2.trans (by rfl)⟩

/-- C6: on a 200 response holding a list of memory-lane entries,
`list_memory_lane_images` concatenates the entries' image assets in entry
order, keeping each entry's intra-entry order. -/
theorem C6_memory_lane_flatten (entries : List (List Json)) (raw : List Nat)
    (h : (entries.all fun as => as.all isObj) = true) :
    list_memory_lane_images (.response ⟨200, raw,
        .arr (entries.map fun as => .obj [("assets", .arr as)])⟩)
      = .ok (entries.map fun as => as.filter hasImageType).flatten := by
  simp [list_memory_lane_images, Json.pyIter, memoryLaneLoop_eq_join entries h,
    bind, Except.bind]

/-- C6 witness: entries `[{assets:[A(IMAGE)]}, {assets:[D(VIDEO),
C(IMAGE)]}]` flatten to `[A, C]`. -/
theorem C6_memory_lane_flatten_witness :
    list_memory_lane_images (.response ⟨200, [],
        .arr [.obj [("assets", .arr [imgA])],
              .obj [("assets", .arr [vidD, imgC])]]⟩)
      = .ok [imgA, imgC] := by
  have h := C6_memory_lane_flatten [[imgA], [vidD, imgC]] [] (by rfl)
  exact h.trans (by rfl)

/-- C7: `download_asset` returns exactly the raw response bytes on a 200
status and returns `None` (raising nothing) on every other status. -/
theorem C7_download_asset_spec (r : HttpResponse) :
    download_asset (.response r) =
      .ok (if r.status = 200 then some r.raw else none) := by
  by_cases h : r.status = 200 <;> simp [download_asset, h]

/-- C8: every operation's request carries the `x-api-key` header with the
API key stored at construction. -/
theorem C8_api_key_header (apiKey assetId albumId : String) (day month : Nat) :
    (_HEADER_API_KEY, apiKey) ∈ (authenticate_request apiKey).headers ∧
    (_HEADER_API_KEY, apiKey) ∈ (get_my_user_info_request apiKey).headers ∧
    (_HEADER_API_KEY, apiKey) ∈ (get_asset_info_request apiKey assetId).headers ∧
    (_HEADER_API_KEY, apiKey) ∈ (download_asset_request apiKey assetId).headers ∧
    (_HEADER_API_KEY, apiKey) ∈ (list_favorite_images_request apiKey).headers ∧
    (_HEADER_API_KEY, apiKey) ∈ (list_all_albums_request apiKey).headers ∧
    (_HEADER_API_KEY, apiKey) ∈ (list_album_images_request apiKey albumId).headers ∧
    (_HEADER_API_KEY, apiKey) ∈
      (list_memory_lane_images_request apiKey day month).headers := by
  refine ⟨?_, ?_, ?_, ?_, ?_, ?_, ?_, ?_⟩ <;>
    simp [authenticate_request, get_my_user_info_request, get_asset_info_request,
      download_asset_request, list_favorite_images_request, list_all_albums_request,
      list_album_images_request, list_memory_lane_images_request]

/-- C9: any status other than exactly 200 — including 201 and 204 — takes
the failure branch: `authenticate` returns `false`, `download_asset`
returns `None`, and every JSON accessor raises `ApiError`. -/
theorem C9_only_exact_200_succeeds (r : HttpResponse) (h : r.status ≠ 200) :
    authenticate (.response r) = .ok false ∧
    get_my_user_info (.response r) = .apiError ∧
    get_asset_info (.response r) = .apiError ∧
    download_asset (.response r) = .ok none ∧
    list_favorite_images (.response r) = .apiError ∧
    list_all_albums (.response r) = .apiError ∧
    list_album_images (.response r) = .apiError ∧
    list_memory_lane_images (.response r) = .apiError := by
  refine ⟨?_, ?_, ?_, ?_, ?_, ?_, ?_, ?_⟩ <;>
    simp [authenticate, get_my_user_info, get_asset_info, download_asset,
      list_favorite_images, list_all_albums, list_album_images,
      list_memory_lane_images, h]

/-- C9 witness: a 201 response — a 2xx success status that is not 200 —
takes the failure branch in all eight operations. -/
theorem C9_only_exact_200_succeeds_witness :
    authenticate (.response ⟨201, [], .obj []⟩) = .ok false ∧
    get_my_user_info (.response ⟨201, [], .obj []⟩) = .apiError ∧
    get_asset_info (.response ⟨201, [], .obj []⟩) = .apiError ∧
    download_asset (.response ⟨201, [], .obj []⟩) = .ok none ∧
    list_favorite_images (.response ⟨201, [], .obj []⟩) = .apiError ∧
    list_all_albums (.response ⟨201, [], .obj []⟩) = .apiError ∧
    list_album_images (.response ⟨201, [], .obj []⟩) = .apiError ∧
    list_memory_lane_images (.response ⟨201, [], .obj []⟩) = .apiError :=
  C9_only_exact_200_succeeds ⟨201, [], .obj []⟩ (by decide)

/-- C4 counterexample: on a 200 response whose body is the empty JSON
object, `list_favorite_images` lets an untyped Python `KeyError` escape —
so it is not the case that every accessor, on every response body, ends in
a contract value or one of the three typed failures. -/
theorem C4_counterexample_untyped_key_error :
    list_favorite_images (.response ⟨200, [], .obj []⟩)
      = .pyError (.keyError "assets") ∧
    (list_favorite_images (.response ⟨200, [], .obj []⟩)).isTyped = false :=
  ⟨rfl, rfl⟩

/-- C4 (amended): on response bodies matching each endpoint's expected
schema, every accessor returns a contract value or raises one of the
typed failures; bodies outside the schema can instead make an untyped
mapping-access error escape. -/
theorem C4_typed_outcomes_on_wellformed (r1 r2 r3 : HttpResponse)
    (hFav : wfFavoritesBody r1.json = true)
    (hAlb : wfAlbumBody r2.json = true)
    (hMem : wfMemoryLaneBody r3.json = true) :
    (authenticate (.response r1)).isTyped = true ∧
    (get_my_user_info (.response r1)).isTyped = true ∧
    (get_asset_info (.response r1)).isTyped = true ∧
    (download_asset (.response r1)).isTyped = true ∧
    (list_all_albums (.response r1)).isTyped = true ∧
    (list_favorite_images (.response r1)).isTyped = true ∧
    (list_album_images (.response r2)).isTyped = true ∧
    (list_memory_lane_images (.response r3)).isTyped = true := by
  refine ⟨authenticate_typed r1 (wfFavoritesBody_isObj r1.json hFav),
    ?_, ?_, ?_, ?_,
    list_favorite_images_typed r1 hFav,
    list_album_images_typed r2 hAlb,
    list_memory_lane_images_typed r3 hMem⟩ <;>
  · by_cases h200 : r1.status = 200 <;>
      simp [get_my_user_info, get_asset_info, download_asset, list_all_albums,
        h200, HubOutcome.isTyped]

/-- C4 amended witness: successful runs on concrete schema-conforming
bodies end typed for all eight accessors. -/
theorem C4_typed_outcomes_on_wellformed_witness :
    (authenticate (.response ⟨200, [],
        .obj [("assets", .obj [("items", .arr [imgA, vidD])])]⟩)).isTyped = true ∧
    (get_my_user_info (.response ⟨200, [],
        .obj [("assets", .obj [("items", .arr [imgA, vidD])])]⟩)).isTyped = true ∧
    (get_asset_info (.response ⟨200, [],
        .obj [("assets", .obj [("items", .arr [imgA, vidD])])]⟩)).isTyped = true ∧
    (download_asset (.response ⟨200, [],
        .obj [("assets", .obj [("items", .arr [imgA, vidD])])]⟩)).isTyped = true ∧
    (list_all_albums (.response ⟨200, [],
        .obj [("assets", .obj [("items", .arr [imgA, vidD])])]⟩)).isTyped = true ∧
    (list_favorite_images (.response ⟨200, [],
        .obj [("assets", .obj [("items", .arr [imgA, vidD])])]⟩)).isTyped = true ∧
    (list_album_images (.response ⟨200, [],
        .obj [("assets", .arr [imgA, vidD])]⟩)).isTyped = true ∧
    (list_memory_lane_images (.response ⟨200, [],
        .arr [.obj [("assets", .arr [imgA, vidD])]]⟩)).isTyped = true :=
  C4_typed_outcomes_on_wellformed
    ⟨200, [], .obj [("assets", .obj [("items", .arr [imgA, vidD])])]⟩
    ⟨200, [], .obj [("assets", .arr [imgA, vidD])]⟩
    ⟨200, [], .arr [.obj [("assets", .arr [imgA, vidD])]]⟩
    (by rfl) (by rfl) (by rfl)

/-- C10: an asset dict with no `"type"` key is silently excluded by
`list_memory_lane_images` (its `.get` yields `None`, which is not
`"IMAGE"`), while `list_favorite_images` and `list_album_images` subscript
the key directly and fail with an untyped `KeyError` on the same asset. -/
theorem C10_missing_type_key (fs : List (String × Json)) (raw : List Nat)
    (h : assocGet fs "type" = none) :
    list_memory_lane_images (.response ⟨200, raw,
        .arr [.obj [("assets", .arr [.obj fs])]]⟩) = .ok [] ∧
    list_favorite_images (.response ⟨200, raw,
        .obj [("assets", .obj [("items", .arr [.obj fs])])]⟩)
      = .pyError (.keyError "type") ∧
    list_album_images (.response ⟨200, raw,
        .obj [("assets", .arr [.obj fs])]⟩)
      = .pyError (.keyError "type") := by
  refine ⟨?_, ?_, ?_⟩
  · simp [list_memory_lane_images, Json.pyIter, memoryLaneLoop, Json.subscript,
      assocGet, memoryFilter, Json.dictGet, h, isImageTag, bind, Except.bind,
      pure, Except.pure]
  · simp [list_favorite_images, Json.subscript, assocGet, Json.pyIter,
      filterTypeImage, h, bind, Except.bind, pure, Except.pure]
  · simp [list_album_images, Json.subscript, assocGet, Json.pyIter,
      filterTypeImage, h, bind, Except.bind, pure, Except.pure]

/-- C10 witness: the empty dict `{}` as sole asset — excluded by
`list_memory_lane_images`, `KeyError` in the other two list operations. -/
theorem C10_missing_type_key_witness :
    list_memory_lane_images (.response ⟨200, [],
        .arr [.obj [("assets", .arr [.obj []])]]⟩) = .ok [] ∧
    list_favorite_images (.response ⟨200, [],
        .obj [("assets", .obj [("items", .arr [.obj []])])]⟩)
      = .pyError (.keyError "type") ∧
    list_album_images (.response ⟨200, [],
        .obj [("assets", .arr [.obj []])]⟩)
      = .pyError (.keyError "type") :=
  C10_missing_type_key [] [] rfl

end Immich
